import Mathlib

/-!
Verification of the multi-tenant container routing template.

The model below is a shallow embedding of `src/index.js` (the second,
v2 copy in the repository): the `VibeAppContainer` Durable Object class
(its lifecycle hooks and RPC methods) and the Worker router (`fetch`).
JavaScript objects and the Headers map are modelled as association lists
observed through lookup; Durable Object storage is modelled as a record
with one field per storage key used by the source.  The platform
primitives that are not part of the repository (`idFromName`, the
`@cloudflare/containers` lifecycle engine) are modelled from the spec
where a claim needs them, and each such definition says so in its doc
comment.
-/

namespace MultiTenant

/-- JSON-like values stored in Durable Object storage and metadata. -/
inductive JsVal where
  | str : String → JsVal
  | num : Nat → JsVal
deriving DecidableEq, Repr

/-- A JavaScript object, observed only through property lookup. -/
abbrev Obj := List (String × JsVal)

/-- First-match association-list lookup: JS property access on objects
whose keys are unique (all objects built by the model are canonical). -/
def alistGet {α : Type} : List (String × α) → String → Option α
  | [], _ => none
  | (k', v) :: rest, k => if k = k' then some v else alistGet rest k

/-- Remove every binding of a key. -/
def alistRemove {α : Type} : List (String × α) → String → List (String × α)
  | [], _ => []
  | (k', v) :: rest, k => if k' = k then alistRemove rest k else (k', v) :: alistRemove rest k

/-- Overwrite a key with a value (JS property write / `Headers.set`). -/
def alistSet {α : Type} (l : List (String × α)) (k : String) (v : α) : List (String × α) :=
  (k, v) :: alistRemove l k

/-- JS object spread `{...base, ...patch}`: every property of `patch`
overwrites the corresponding property of `base`. -/
def spreadJS (base patch : Obj) : Obj :=
  patch.foldl (fun acc kv => alistSet acc kv.1 kv.2) base

lemma alistGet_alistRemove {α : Type} (l : List (String × α)) (k k' : String) (h : k' ≠ k) :
    alistGet (alistRemove l k) k' = alistGet l k' := by
  induction l with
  | nil => rfl
  | cons p rest ih =>
    by_cases hpk : p.1 = k
    · simp only [alistRemove, hpk, if_pos, ih]
      rw [alistGet]
      simp [hpk ▸ h, ih]
    · rw [alistRemove]
      simp only [hpk, if_neg, ite_false]
      rw [alistGet, alistGet]
      by_cases hk : k' = p.1 <;> simp [hk, ih]

lemma alistGet_alistSet {α : Type} (l : List (String × α)) (k k' : String) (v : α) :
    alistGet (alistSet l k v) k' = if k' = k then some v else alistGet l k' := by
  by_cases h : k' = k
  · simp [alistSet, alistGet, h]
  · simp [alistSet, alistGet, h, alistGet_alistRemove l k k' h]

lemma alistGet_eq_none_of_not_mem {α : Type} (l : List (String × α)) (k : String)
    (h : k ∉ l.map Prod.fst) : alistGet l k = none := by
  induction l with
  | nil => rfl
  | cons p rest ih =>
    rw [alistGet]
    simp only [List.map_cons, List.mem_cons] at h
    push_neg at h
    simp [h.1, ih h.2]

lemma alistGet_spreadJS (patch base : Obj) (k : String)
    (h : (patch.map Prod.fst).Nodup) :
    alistGet (spreadJS base patch) k =
      match alistGet patch k with
      | some v => some v
      | none => alistGet base k := by
  induction patch generalizing base with
  | nil => simp [spreadJS, alistGet]
  | cons p rest ih =>
    obtain ⟨pk, pv⟩ := p
    simp only [List.map_cons, List.nodup_cons] at h
    have hstep : spreadJS base ((pk, pv) :: rest) = spreadJS (alistSet base pk pv) rest := rfl
    rw [hstep, ih _ h.2]
    by_cases hk : k = pk
    · subst hk
      rw [alistGet_eq_none_of_not_mem rest k h.1]
      simp [alistGet, alistGet_alistSet]
    · rw [alistGet]
      simp only [hk, ite_false]
      cases hr : alistGet rest k <;> simp [alistGet_alistSet, hk]

/-!
## Durable Object storage and the VibeAppContainer methods (from src)
-/

/-- Durable Object storage, one field per storage key the source uses
(`startCount`, `lastStarted`, `lastStopped`, `lastError`,
`totalRequests`, `containerLocation`, `metadata`).  A `none` field is a
key that was never written. -/
structure Storage where
  startCount : Option Nat
  lastStarted : Option Nat
  lastStopped : Option Nat
  lastError : Option JsVal
  totalRequests : Option Nat
  containerLocation : Option Obj
  metadata : Option Obj
deriving DecidableEq, Repr

/-- Storage of a Durable Object no request has touched yet. -/
def emptyStorage : Storage :=
  { startCount := none, lastStarted := none, lastStopped := none, lastError := none
    totalRequests := none, containerLocation := none, metadata := none }

/-- `onStart` hook from src: stamps `lastStarted` and increments
`startCount` (reading `(get "startCount") || 0`). -/
def onStart (st : Storage) (now : Nat) : Storage :=
  { st with lastStarted := some now, startCount := some (st.startCount.getD 0 + 1) }

/-- `onStop` hook from src: stamps `lastStopped`. -/
def onStop (st : Storage) (now : Nat) : Storage :=
  { st with lastStopped := some now }

/-- `setMetadata` from src: stores
`{...(get "metadata") || {}, ...patch, updatedAt: Date.now()}` and
returns `{success: true}`.  The `put` is awaited, so the returned
storage (observable by any later read) already holds the merge. -/
def setMetadata (st : Storage) (patch : Obj) (now : Nat) : Storage × Bool :=
  let merged : Obj := alistSet (spreadJS (st.metadata.getD []) patch) "updatedAt" (JsVal.num now)
  ({ st with metadata := some merged }, true)

/-- Runtime status of the one container a Durable Object controls. -/
inductive ContStatus where
  | stopped
  | starting
  | running
deriving DecidableEq, Repr

/-- A Durable Object instance: its container plus its storage. -/
structure DOState where
  cont : ContStatus
  storage : Storage
deriving DecidableEq, Repr

/-- The JSON body `restart()` returns. -/
structure RestartResult where
  success : Bool
  message : String
deriving DecidableEq, Repr

/-- `restart` from src (v2): `await this.ctx.container.destroy()` force
stops the container whatever its state, then `this.ctx.container.start()`
is invoked WITHOUT `await` — the method returns while the start is only
initiated — and the result `{success: true, message: "Container restarted"}`
is returned unconditionally. -/
def restart (d : DOState) : DOState × RestartResult :=
  let afterDestroy : DOState := { d with cont := ContStatus.stopped }
  let afterStartCall : DOState := { afterDestroy with cont := ContStatus.starting }
  (afterStartCall, { success := true, message := "Container restarted" })

/-- Environment step, outside `restart`: a pending start completes, the
container reports running and the platform fires the `onStart` hook. -/
def completeStart (d : DOState) (now : Nat) : DOState :=
  { cont := ContStatus.running, storage := onStart d.storage now }

/-- The fields of the JSON object `getAppStatus` builds (the
`requestLocation` block the Worker adds for `/_status` is omitted:
no claim mentions it). -/
structure AppStatus where
  appId : String
  running : Bool
  statusStr : String
  startCount : Nat
  lastStarted : Option Nat
  lastStopped : Option Nat
  lastError : Option JsVal
  totalRequests : Nat
  metadata : Obj
deriving DecidableEq, Repr

/-- `getAppStatus` from src: a read-only snapshot of the container flag
`this.ctx.container.running` and the stored stats, with `|| 0` / `|| {}`
defaults exactly as in the source. -/
def getAppStatus (appId : String) (cont : ContStatus) (st : Storage) : AppStatus :=
  { appId := appId
    running := cont = ContStatus.running
    statusStr := if cont = ContStatus.running then "running" else "stopped"
    startCount := st.startCount.getD 0
    lastStarted := st.lastStarted
    lastStopped := st.lastStopped
    lastError := st.lastError
    totalRequests := st.totalRequests.getD 0
    metadata := st.metadata.getD [] }

/-- `updateLocation` from src: increments `totalRequests` and stores the
caller's location object. -/
def updateLocation (st : Storage) (loc : Obj) : Storage × Nat :=
  let total := st.totalRequests.getD 0 + 1
  ({ st with totalRequests := some total, containerLocation := some loc }, total)

/-!
## Instance location (platform primitive, modelled from the spec)
-/

/-- A Durable Object identity. -/
structure InstanceIdentity where
  digest : List Nat
deriving DecidableEq, Repr

/-- Modelled from the spec: the deterministic ID derivation `idFromName`
behind `env.VIBE_APP.getByName(appId)` is a platform primitive, not part
of this repository — src only calls it.  Per the spec (§4.2 and the
data model) it is a pure, total, referentially transparent, one-way
collision-resistant mapping from a TenantKey to an InstanceIdentity; we
model it as an injective encoding of the key's character codes. -/
def locate (k : String) : InstanceIdentity :=
  ⟨k.data.map Char.toNat⟩

/-!
## Lifecycle controller (external engine, modelled from the spec)
-/

/-- LifecycleState from the spec's state machine. -/
inductive Lifecycle where
  | cold
  | starting
  | running
  | idle
  | sleeping
  | stopping
  | error
deriving DecidableEq, Repr

/-- One lifecycle controller: its state, its Durable Object storage and
a count of invocations of the external start primitive. -/
structure CtrlState where
  lifecycle : Lifecycle
  storage : Storage
  startAttempts : Nat
deriving DecidableEq, Repr

/-- Modelled from the spec: `ensureRunning()` lives in the external
`@cloudflare/containers` Container class, not under src (src supplies
only the `onStart`/`onStop`/`onError` hooks).  Per the spec, a
per-controller mutual-exclusion section covers the whole
Cold/Sleeping → Starting → Running transition, so with respect to other
callers each call is one atomic step: a caller finding the instance cold
or sleeping performs the single start (invoking the external primitive
once and firing the src `onStart` hook), every other caller awaits and
then observes the resulting state. -/
def ensureRunning (s : CtrlState) (now : Nat) : CtrlState × Lifecycle :=
  match s.lifecycle with
  | Lifecycle.cold =>
      ({ lifecycle := Lifecycle.running, storage := onStart s.storage now
         startAttempts := s.startAttempts + 1 }, Lifecycle.running)
  | Lifecycle.sleeping =>
      ({ lifecycle := Lifecycle.running, storage := onStart s.storage now
         startAttempts := s.startAttempts + 1 }, Lifecycle.running)
  | other => (s, other)

/-- `n` concurrent `ensureRunning()` callers: under the spec's
serialization their critical sections execute in some sequence; the
returned list is each caller's observed state in execution order. -/
def runCalls : CtrlState → Nat → Nat → CtrlState × List Lifecycle
  | s, 0, _ => (s, [])
  | s, Nat.succ n, now =>
      let r := ensureRunning s now
      let rest := runCalls r.1 n now
      (rest.1, r.2 :: rest.2)

/-!
## The Worker router (from src, v2 `fetch`)
-/

/-- An inbound request as the router consumes it: `url.pathname`,
`url.searchParams.get("appId")` (`none` when the parameter is absent),
the method and the headers. -/
structure Request where
  pathname : String
  queryAppId : Option String
  method : String
  headers : List (String × String)
deriving DecidableEq, Repr

/-- The character class `[^\/]` of the routing regex. -/
def notSlash (c : Char) : Bool :=
  decide (c ≠ '/')

/-- The capture of `/^\/app\/([^\/]+)/` on a path given as characters:
after the literal `/app/`, the (non-empty) run of characters up to the
next `/`. -/
def pathSegOf (l : List Char) : Option (List Char) :=
  if l.take 5 = ['/', 'a', 'p', 'p', '/'] then
    if ((l.drop 5).takeWhile notSlash).isEmpty then none
    else some ((l.drop 5).takeWhile notSlash)
  else none

/-- Pattern 1 of the router: path-based routing `/app/{appId}/...`. -/
def pathAppId (p : String) : Option String :=
  (pathSegOf p.data).map String.mk

/-- STEP 1 of the router: try the path pattern, then the `appId` query
parameter.  Pattern 3 (subdomain routing) is commented out in src —
disabled — so it is absent here as well. -/
def extractAppId (r : Request) : Option String :=
  match pathAppId r.pathname with
  | some a => some a
  | none => r.queryAppId

/-- One character of the `appId` syntax class `[a-zA-Z0-9_-]`. -/
def isKeyChar (c : Char) : Bool :=
  decide (('a' ≤ c ∧ c ≤ 'z') ∨ ('A' ≤ c ∧ c ≤ 'Z') ∨ ('0' ≤ c ∧ c ≤ '9') ∨ c = '_' ∨ c = '-')

/-- `/^[a-zA-Z0-9_-]+$/.test(appId)`: non-empty and every character in
the class. -/
def validKey (s : String) : Bool :=
  decide (s.data ≠ []) && s.data.all isKeyChar

/-- What remains of `pathSegOf`'s input after the matched part. -/
def pathTailOf (l : List Char) : Option (List Char) :=
  if l.take 5 = ['/', 'a', 'p', 'p', '/'] then
    if ((l.drop 5).takeWhile notSlash).isEmpty then none
    else some ((l.drop 5).dropWhile notSlash)
  else none

/-- `url.pathname.replace(/^\/app\/[^\/]+/, "") || "/"` from src: strip
the `/app/{appId}` routing prefix; an empty result (or an empty input,
for the query form at an empty path) becomes `/`. -/
def appPathOf (p : String) : String :=
  match pathTailOf p.data with
  | some tail => if tail.isEmpty then "/" else String.mk tail
  | none => if p.data.isEmpty then "/" else p

/-- Where the router's `fetch` sends a request. -/
inductive Outcome where
  | platformUI
  | platformHealth
  | platformApi
  | missingAppId
  | invalidAppId (provided : String)
  | statusEndpoint (appId : String)
  | restartEndpoint (appId : String)
  | metadataGet (appId : String)
  | metadataSet (appId : String)
  | forward (appId : String) (appPath : String)
deriving DecidableEq, Repr

/-- STEP 5/6 of the router, after `getByName`: the management
sub-endpoints on the stripped path, else forwarding.  `/_restart`
requires POST, `/_metadata` requires GET, POST or PUT; any other
combination falls through to forwarding, as in src. -/
def dispatchManagement (appId appPath m : String) : Outcome :=
  if appPath = "/_status" then Outcome.statusEndpoint appId
  else if appPath = "/_restart" ∧ m = "POST" then Outcome.restartEndpoint appId
  else if appPath = "/_metadata" ∧ m = "GET" then Outcome.metadataGet appId
  else if appPath = "/_metadata" ∧ (m = "POST" ∨ m = "PUT") then Outcome.metadataSet appId
  else Outcome.forward appId appPath

/-- The router's `fetch`, in source order: extract the candidate appId;
answer the platform-level routes (`/` and `/ui` serve the UI, `/health`
and `/api` the info JSON) purely on the pathname; then the missing-key
check (`!appId`: absent or empty), the syntax check, and dispatch. -/
def routeRequest (r : Request) : Outcome :=
  if r.pathname = "/" ∨ r.pathname = "/ui" then Outcome.platformUI
  else if r.pathname = "/health" then Outcome.platformHealth
  else if r.pathname = "/api" then Outcome.platformApi
  else
    match extractAppId r with
    | none => Outcome.missingAppId
    | some appId =>
        if appId.data = [] then Outcome.missingAppId
        else if validKey appId = false then Outcome.invalidAppId appId
        else dispatchManagement appId (appPathOf r.pathname) r.method

/-- Whether an outcome lies past STEP 4 (`env.VIBE_APP.getByName`),
i.e. whether a Durable Object stub was obtained (lazily creating the
record) and the lifecycle layer contacted for the key. -/
def touchesController : Outcome → Bool
  | Outcome.statusEndpoint _ => true
  | Outcome.restartEndpoint _ => true
  | Outcome.metadataGet _ => true
  | Outcome.metadataSet _ => true
  | Outcome.forward _ _ => true
  | _ => false

/-- The router's own 400-level bodies: status plus the `error` field and,
for the invalid case, the echoed `provided` field, as in src. -/
structure ErrResp where
  status : Nat
  error : String
  provided : Option String
deriving DecidableEq, Repr

/-- The error responses the router answers itself before dispatch. -/
def routerError : Outcome → Option ErrResp
  | Outcome.missingAppId => some { status := 400, error := "Missing App ID", provided := none }
  | Outcome.invalidAppId k => some { status := 400, error := "Invalid App ID", provided := some k }
  | _ => none

/-!
## Forwarding (STEP 6 and the catch block, from src)
-/

/-- A response body: either raw bytes from the instance or the router's
error JSON `{error, message, appId}`. -/
inductive Body where
  | raw (s : String)
  | errJson (error message appId : String)
deriving DecidableEq, Repr

/-- An HTTP response: status, headers, body. -/
structure Response where
  status : Nat
  headers : List (String × String)
  body : Body
deriving DecidableEq, Repr

/-- STEP 6's tail from src: `new Response(response.body, response)`
copies status, headers and body; then
`corsResponse.headers.set("X-Served-By", "vibe-app-" + appId)`. -/
def forwardResponse (appId : String) (resp : Response) : Response :=
  { status := resp.status
    headers := alistSet resp.headers "X-Served-By" ("vibe-app-" ++ appId)
    body := resp.body }

/-- The catch block from src: any error thrown while handling the
request becomes HTTP 500 with body
`{error: "Container Error", message, appId}` (no stack trace). -/
def containerErrorResponse (appId msg : String) : Response :=
  { status := 500
    headers := [("Content-Type", "application/json")]
    body := Body.errJson "Container Error" msg appId }

/-- The forward path from src: exactly one
`await appContainer.fetch(containerRequest)` — the oracle is indexed by
attempt number and only attempt 0 is ever consulted, there is no retry —
whose success is relayed through `forwardResponse` and whose failure is
caught into `containerErrorResponse`. -/
def fetchForward (appId : String) (oracle : Nat → Except String Response) : Response :=
  match oracle 0 with
  | Except.ok resp => forwardResponse appId resp
  | Except.error msg => containerErrorResponse appId msg

/-!
## Helper lemmas on paths and strings
-/

lemma data_ne_nil_of_ne_empty {s : String} (h : s ≠ "") : s.data ≠ [] :=
  fun hd => h (by cases s; cases hd; rfl)

lemma takeWhile_slash_append (l₁ l₂ : List Char)
    (h₁ : ∀ c ∈ l₁, c ≠ '/') (h₂ : l₂ = [] ∨ l₂.head? = some '/') :
    (l₁ ++ l₂).takeWhile notSlash = l₁ := by
  induction l₁ with
  | nil =>
    rcases h₂ with h | h
    · subst h; rfl
    · cases l₂ with
      | nil => rfl
      | cons c tl =>
        simp only [List.head?] at h
        injection h with h
        subst h
        simp [List.takeWhile, notSlash]
  | cons c tl ih =>
    have hc : notSlash c = true := decide_eq_true (h₁ c (by simp))
    rw [List.cons_append, List.takeWhile_cons, hc]
    simp only [if_true]
    rw [ih (fun x hx => h₁ x (by simp [hx]))]

lemma dropWhile_slash_append (l₁ l₂ : List Char)
    (h₁ : ∀ c ∈ l₁, c ≠ '/') (h₂ : l₂ = [] ∨ l₂.head? = some '/') :
    (l₁ ++ l₂).dropWhile notSlash = l₂ := by
  induction l₁ with
  | nil =>
    rcases h₂ with h | h
    · subst h; rfl
    · cases l₂ with
      | nil => rfl
      | cons c tl =>
        simp only [List.head?] at h
        injection h with h
        subst h
        simp [List.dropWhile, notSlash]
  | cons c tl ih =>
    have hc : notSlash c = true := decide_eq_true (h₁ c (by simp))
    rw [List.cons_append, List.dropWhile_cons, hc]
    simp only [if_true]
    rw [ih (fun x hx => h₁ x (by simp [hx]))]

lemma appPathData (seg rest : String) :
    ("/app/" ++ seg ++ rest).data = '/' :: 'a' :: 'p' :: 'p' :: '/' :: (seg.data ++ rest.data) :=
  rfl

lemma pathAppId_concat (seg rest : String)
    (h₁ : seg.data ≠ []) (h₂ : ∀ c ∈ seg.data, c ≠ '/')
    (h₃ : rest.data = [] ∨ rest.data.head? = some '/') :
    pathAppId ("/app/" ++ seg ++ rest) = some seg := by
  have htake : ('/' :: 'a' :: 'p' :: 'p' :: '/' :: (seg.data ++ rest.data)).take 5
      = ['/', 'a', 'p', 'p', '/'] := rfl
  have hdrop : ('/' :: 'a' :: 'p' :: 'p' :: '/' :: (seg.data ++ rest.data)).drop 5
      = seg.data ++ rest.data := rfl
  have hie : seg.data.isEmpty = false := by
    cases hd : seg.data
    · exact absurd hd h₁
    · rfl
  unfold pathAppId pathSegOf
  rw [appPathData, htake, hdrop, takeWhile_slash_append seg.data rest.data h₂ h₃, hie]
  show some (String.mk seg.data) = some seg
  cases seg
  rfl

lemma appPathOf_concat (seg rest : String)
    (h₁ : seg.data ≠ []) (h₂ : ∀ c ∈ seg.data, c ≠ '/')
    (h₃ : rest.data.head? = some '/') :
    appPathOf ("/app/" ++ seg ++ rest) = rest := by
  have hne : rest.data ≠ [] := by
    intro h
    rw [h] at h₃
    cases h₃
  have htake : ('/' :: 'a' :: 'p' :: 'p' :: '/' :: (seg.data ++ rest.data)).take 5
      = ['/', 'a', 'p', 'p', '/'] := rfl
  have hdrop : ('/' :: 'a' :: 'p' :: 'p' :: '/' :: (seg.data ++ rest.data)).drop 5
      = seg.data ++ rest.data := rfl
  have hie : seg.data.isEmpty = false := by
    cases hd : seg.data
    · exact absurd hd h₁
    · rfl
  have hie₂ : rest.data.isEmpty = false := by
    cases hd : rest.data
    · exact absurd hd hne
    · rfl
  unfold appPathOf pathTailOf
  rw [appPathData, htake, hdrop, takeWhile_slash_append seg.data rest.data h₂ (Or.inr h₃),
      dropWhile_slash_append seg.data rest.data h₂ (Or.inr h₃), hie]
  show (if rest.data.isEmpty = true then "/" else String.mk rest.data) = rest
  rw [hie₂]
  cases rest
  rfl

lemma validKey_data_ne_nil {s : String} (h : validKey s = true) : s.data ≠ [] := by
  unfold validKey at h
  simp only [Bool.and_eq_true, decide_eq_true_eq] at h
  exact h.1

lemma validKey_no_slash {s : String} (h : validKey s = true) : ∀ c ∈ s.data, c ≠ '/' := by
  unfold validKey at h
  simp only [Bool.and_eq_true, List.all_eq_true] at h
  intro c hc hslash
  subst hslash
  exact absurd (h.2 '/' hc) (by decide)

/-!
## Claim C1
-/

/-- Claim C1: for every valid TenantKey the locator is a pure function —
repeated calls (in particular across process restarts: `locate` takes no
state) agree — and distinct keys yield distinct identities:
`locate k₁ = locate k₂ ↔ k₁ = k₂`. -/
theorem locate_deterministic_injective (k₁ k₂ : String) :
    locate k₁ = locate k₂ ↔ k₁ = k₂ := by
  constructor
  · intro h
    have hd : k₁.data.map Char.toNat = k₂.data.map Char.toNat :=
      congrArg InstanceIdentity.digest h
    have hinj : Function.Injective Char.toNat := by
      intro a b hab
      have := congrArg Char.ofNat hab
      simpa [Char.ofNat_toNat] using this
    have hdata : k₁.data = k₂.data := List.map_injective_iff.mpr hinj hd
    cases k₁
    cases k₂
    cases hdata
    rfl
  · intro h
    rw [h]

/-!
## Claim C2
-/

/-- A running Durable Object that has started once. -/
def exRunningDO : DOState :=
  { cont := ContStatus.running
    storage := { emptyStorage with startCount := some 1, lastStarted := some 100 } }

/-- Claim C2 counterexample: `restart()` on a running instance returns
`{success: true}` while the container is only `starting` — it has not
reported running, no failure was raised, and `startCount` is still 1 at
return time, so the claim's "returns only after the instance reports
Running" and "subsequent /_status shows startCount incremented" are
false at this input. -/
theorem restart_returns_before_running :
    (restart exRunningDO).2.success = true ∧
    (restart exRunningDO).1.cont ≠ ContStatus.running ∧
    (restart exRunningDO).1.storage.startCount = some 1 ∧
    (getAppStatus "my-app" (restart exRunningDO).1.cont (restart exRunningDO).1.storage).startCount = 1 ∧
    (getAppStatus "my-app" (restart exRunningDO).1.cont (restart exRunningDO).1.storage).running = false := by
  refine ⟨rfl, by decide, rfl, rfl, rfl⟩

/-- Claim C2 (amended): `restart()` force-stops (destroys) the container
regardless of its state, initiates — but does not await — a fresh start,
and returns `{success:true, message:"Container restarted"}` immediately,
with the container in `starting` and the storage untouched; only when
the initiated start completes does the `onStart` hook run, after which
the container reports running and `startCount` is incremented by one. -/
theorem restart_destroy_then_start (d : DOState) (now : Nat) :
    (restart d).2 = { success := true, message := "Container restarted" } ∧
    (restart d).1.cont = ContStatus.starting ∧
    (restart d).1.storage = d.storage ∧
    (completeStart (restart d).1 now).cont = ContStatus.running ∧
    (completeStart (restart d).1 now).storage.startCount
      = some (d.storage.startCount.getD 0 + 1) := by
  refine ⟨rfl, rfl, rfl, rfl, ?_⟩
  simp [restart, completeStart, onStart]

/-!
## Claim C3
-/

/-- Claim C3: evaluation at the failing input.  A request to path `/`
with query `?appId=my-app` — a syntactically valid candidate key,
extracted by the router itself — is nevertheless answered by the
platform UI route, because the `pathname === "/" || pathname === "/ui"`
check runs before the candidate key is consulted; the Durable Object
stub is never obtained.  This contradicts the claim (and the code's own
comments and README, which document `/?appId={appId}` as a supported
routing form). -/
theorem root_query_appid_hits_platform_ui :
    extractAppId { pathname := "/", queryAppId := some "my-app", method := "GET", headers := [] }
      = some "my-app" ∧
    validKey "my-app" = true ∧
    routeRequest { pathname := "/", queryAppId := some "my-app", method := "GET", headers := [] }
      = Outcome.platformUI ∧
    touchesController Outcome.platformUI = false := by
  refine ⟨by decide, by decide, by decide, rfl⟩

/-!
## Claim C5
-/

/-- A transport oracle whose first attempt fails and whose second
attempt (the immediate retry the claim requires) would succeed. -/
def exFlakyFetch : Nat → Except String Response :=
  fun n => if n = 0 then Except.error "connect timeout"
           else Except.ok { status := 200, headers := [], body := Body.raw "hello" }

/-- Claim C5 counterexample: after a transport failure on the first
attempt the router does not retry — although the immediate retry would
have succeeded (attempt 1 of the oracle returns 200) the caller receives
the catch block's HTTP 500 with error `Container Error`, not the
instance's response and not HTTP 502 `InstanceUnreachable`. -/
theorem transport_failure_500_without_retry :
    exFlakyFetch 1 = Except.ok { status := 200, headers := [], body := Body.raw "hello" } ∧
    fetchForward "my-app" exFlakyFetch = containerErrorResponse "my-app" "connect timeout" ∧
    (fetchForward "my-app" exFlakyFetch).status = 500 ∧
    (fetchForward "my-app" exFlakyFetch).status ≠ 502 ∧
    (fetchForward "my-app" exFlakyFetch).body
      = Body.errJson "Container Error" "connect timeout" "my-app" := by
  refine ⟨rfl, rfl, rfl, by decide, rfl⟩

/-- Claim C5 (amended): the router makes a single forwarding attempt; a
transport failure of that one attempt is not retried and surfaces to
the caller as HTTP 500 with error `Container Error` (message echoed,
stack not exposed).  The router never touches LifecycleState — the
response is computed from the failed attempt alone. -/
theorem single_fetch_failure_is_500 (appId msg : String)
    (oracle : Nat → Except String Response) (h : oracle 0 = Except.error msg) :
    fetchForward appId oracle = containerErrorResponse appId msg := by
  unfold fetchForward
  rw [h]

/-- Witness for the amended C5 theorem at a concrete oracle. -/
theorem single_fetch_failure_is_500_witness :
    exFlakyFetch 0 = Except.error "connect timeout" ∧
    fetchForward "w-app" exFlakyFetch = containerErrorResponse "w-app" "connect timeout" :=
  ⟨rfl, single_fetch_failure_is_500 "w-app" "connect timeout" exFlakyFetch rfl⟩

/-!
## Claim C4
-/

/-- Claim C4 counterexample: two requests whose extracted candidate key
fails `^[a-zA-Z0-9_-]+$` yet which do not get the claimed
400 `InvalidTenantKey` answer.  At path `/` with `?appId=bad id!` the
platform UI route answers first (HTTP 200, no error).  At path `/x`
with `?appId=` the extracted key is the empty string — it fails the
regex too — and the router answers 400 `Missing App ID` without echoing
the value. -/
theorem invalid_key_not_always_400 :
    extractAppId { pathname := "/", queryAppId := some "bad id!", method := "GET", headers := [] }
      = some "bad id!" ∧
    validKey "bad id!" = false ∧
    routeRequest { pathname := "/", queryAppId := some "bad id!", method := "GET", headers := [] }
      = Outcome.platformUI ∧
    routerError Outcome.platformUI = none ∧
    validKey "" = false ∧
    routeRequest { pathname := "/x", queryAppId := some "", method := "GET", headers := [] }
      = Outcome.missingAppId ∧
    routerError Outcome.missingAppId
      = some { status := 400, error := "Missing App ID", provided := none } := by
  refine ⟨by decide, by decide, by decide, rfl, by decide, by decide, rfl⟩

/-- Claim C4 (amended): for every request that is not intercepted by a
platform-level path route (`/`, `/ui`, `/health`, `/api`) and whose
extracted candidate key is non-empty and fails the syntax regex, the
router answers HTTP 400 with error `Invalid App ID`, echoing the
rejected value, and the dispatch never reaches `getByName` — no
InstanceRecord is created and no lifecycle layer is contacted. -/
theorem invalid_key_rejected_before_dispatch (r : Request) (k : String)
    (hp1 : r.pathname ≠ "/") (hp2 : r.pathname ≠ "/ui")
    (hp3 : r.pathname ≠ "/health") (hp4 : r.pathname ≠ "/api")
    (hk : extractAppId r = some k) (hne : k.data ≠ []) (hbad : validKey k = false) :
    routeRequest r = Outcome.invalidAppId k ∧
    routerError (routeRequest r)
      = some { status := 400, error := "Invalid App ID", provided := some k } ∧
    touchesController (routeRequest r) = false := by
  have hroute : routeRequest r = Outcome.invalidAppId k := by
    have h1 : ¬(r.pathname = "/" ∨ r.pathname = "/ui") := by
      rintro (h | h)
      · exact hp1 h
      · exact hp2 h
    unfold routeRequest
    rw [if_neg h1, if_neg hp3, if_neg hp4, hk]
    show (if k.data = [] then Outcome.missingAppId
          else if validKey k = false then Outcome.invalidAppId k
          else dispatchManagement k (appPathOf r.pathname) r.method) = Outcome.invalidAppId k
    rw [if_neg hne, if_pos hbad]
  exact ⟨hroute, by rw [hroute]; rfl, by rw [hroute]; rfl⟩

/-- Witness for the amended C4 theorem: the invalid key `bad id!`
supplied through the path form. -/
theorem invalid_key_rejected_before_dispatch_witness :
    (extractAppId { pathname := "/app/bad id!/x", queryAppId := none, method := "GET", headers := [] }
        = some "bad id!" ∧
      validKey "bad id!" = false) ∧
    routeRequest { pathname := "/app/bad id!/x", queryAppId := none, method := "GET", headers := [] }
        = Outcome.invalidAppId "bad id!" ∧
    routerError (routeRequest { pathname := "/app/bad id!/x", queryAppId := none, method := "GET", headers := [] })
        = some { status := 400, error := "Invalid App ID", provided := some "bad id!" } ∧
    touchesController (routeRequest { pathname := "/app/bad id!/x", queryAppId := none, method := "GET", headers := [] })
        = false :=
  ⟨⟨by decide, by decide⟩,
    invalid_key_rejected_before_dispatch
      { pathname := "/app/bad id!/x", queryAppId := none, method := "GET", headers := [] }
      "bad id!" (by decide) (by decide) (by decide) (by decide) (by decide) (by decide) (by decide)⟩

/-!
## Claim C6
-/

/-- Claim C6: `setMetadata` returns `{success:true}` and stores the
union of the previously stored mapping and the patch, the patch winning
on key collisions, plus `updatedAt` stamped with the call time
(which also overrides a patch-supplied `updatedAt`); the write is
already visible in the storage `setMetadata` returns — in particular
`getAppStatus` run on that storage reports the merged metadata — so a
caller observes it before the call completes. -/
theorem setMetadata_merges_and_is_observable (st : Storage) (patch : Obj) (now : Nat)
    (appId : String) (cont : ContStatus) (k : String)
    (h : (patch.map Prod.fst).Nodup) :
    (setMetadata st patch now).2 = true ∧
    alistGet (getAppStatus appId cont (setMetadata st patch now).1).metadata k =
      (if k = "updatedAt" then some (JsVal.num now)
       else match alistGet patch k with
            | some v => some v
            | none => alistGet (st.metadata.getD []) k) := by
  refine ⟨rfl, ?_⟩
  have hm : (getAppStatus appId cont (setMetadata st patch now).1).metadata
      = alistSet (spreadJS (st.metadata.getD []) patch) "updatedAt" (JsVal.num now) := rfl
  rw [hm, alistGet_alistSet]
  by_cases hk : k = "updatedAt"
  · simp [hk]
  · simp only [hk, ite_false]
    exact alistGet_spreadJS patch (st.metadata.getD []) k h

/-- Witness for C6 at a concrete stored mapping, patch and key. -/
theorem setMetadata_merges_and_is_observable_witness :
    (([("appName", JsVal.str "B"), ("owner", JsVal.str "carol")].map Prod.fst).Nodup) ∧
    ((setMetadata { emptyStorage with metadata := some [("appName", JsVal.str "A"), ("tier", JsVal.str "free")] }
        [("appName", JsVal.str "B"), ("owner", JsVal.str "carol")] 42).2 = true ∧
      alistGet (getAppStatus "my-app" ContStatus.running
          (setMetadata { emptyStorage with metadata := some [("appName", JsVal.str "A"), ("tier", JsVal.str "free")] }
            [("appName", JsVal.str "B"), ("owner", JsVal.str "carol")] 42).1).metadata "appName" =
        (if "appName" = "updatedAt" then some (JsVal.num 42)
         else match alistGet [("appName", JsVal.str "B"), ("owner", JsVal.str "carol")] "appName" with
              | some v => some v
              | none => alistGet (({ emptyStorage with metadata := some [("appName", JsVal.str "A"), ("tier", JsVal.str "free")] } : Storage).metadata.getD []) "appName")) :=
  ⟨by decide,
    setMetadata_merges_and_is_observable
      { emptyStorage with metadata := some [("appName", JsVal.str "A"), ("tier", JsVal.str "free")] }
      [("appName", JsVal.str "B"), ("owner", JsVal.str "carol")] 42 "my-app" ContStatus.running
      "appName" (by decide)⟩

/-!
## Claim C7
-/

/-- An instance response that already carries an `X-Served-By` header. -/
def exUpstreamResp : Response :=
  { status := 200, headers := [("X-Served-By", "upstream")], body := Body.raw "ok" }

/-- Claim C7 counterexample: when the instance's response itself carries
an `X-Served-By` header, the returned response does NOT have the same
headers plus one added header — `headers.set` replaces the instance's
value, which is lost (the final header list holds only the router's
value). -/
theorem served_by_header_overwritten :
    alistGet exUpstreamResp.headers "X-Served-By" = some "upstream" ∧
    alistGet (forwardResponse "my-app" exUpstreamResp).headers "X-Served-By"
      = some "vibe-app-my-app" ∧
    (forwardResponse "my-app" exUpstreamResp).headers.map Prod.fst = ["X-Served-By"] ∧
    some "vibe-app-my-app" ≠ some "upstream" := by
  refine ⟨rfl, rfl, rfl, by decide⟩

/-- Claim C7 (amended): for every successfully forwarded request the
response relayed to the caller has the instance's status and body
unchanged, every header other than `X-Served-By` unchanged, and the
`X-Served-By` header set to `vibe-app-{appId}` — added when the instance
did not send one, overwriting the instance's value when it did. -/
theorem forward_relays_response (appId : String) (resp : Response) (k : String)
    (hk : k ≠ "X-Served-By") :
    (forwardResponse appId resp).status = resp.status ∧
    (forwardResponse appId resp).body = resp.body ∧
    alistGet (forwardResponse appId resp).headers "X-Served-By"
      = some ("vibe-app-" ++ appId) ∧
    alistGet (forwardResponse appId resp).headers k = alistGet resp.headers k := by
  have hh : (forwardResponse appId resp).headers
      = alistSet resp.headers "X-Served-By" ("vibe-app-" ++ appId) := rfl
  refine ⟨rfl, rfl, ?_, ?_⟩
  · rw [hh, alistGet_alistSet]
    simp
  · rw [hh, alistGet_alistSet]
    simp [hk]

/-- Witness for the amended C7 theorem at a concrete response. -/
theorem forward_relays_response_witness :
    ("Content-Type" ≠ "X-Served-By") ∧
    ((forwardResponse "w-app" exUpstreamResp).status = exUpstreamResp.status ∧
      (forwardResponse "w-app" exUpstreamResp).body = exUpstreamResp.body ∧
      alistGet (forwardResponse "w-app" exUpstreamResp).headers "X-Served-By"
        = some ("vibe-app-" ++ "w-app") ∧
      alistGet (forwardResponse "w-app" exUpstreamResp).headers "Content-Type"
        = alistGet exUpstreamResp.headers "Content-Type") :=
  ⟨by decide, forward_relays_response "w-app" exUpstreamResp "Content-Type" (by decide)⟩

/-!
## Claim C8
-/

/-- Claim C8: the candidate key is extracted by trying the path segment
after `/app/` first and the `appId` query parameter second; the first
rule yielding a value wins — in particular, when both a path-form key
and a query-form key are present the path-form key is used — and when
the path rule yields nothing the query parameter (whatever it is) is
the result.  The subdomain rule is disabled (commented out) in src: no
third rule exists in `extractAppId`. -/
theorem extract_appid_order (seg rest p : String) (q : Option String) (m : String)
    (hs : List (String × String))
    (h₁ : seg.data ≠ []) (h₂ : ∀ c ∈ seg.data, c ≠ '/')
    (h₃ : rest.data = [] ∨ rest.data.head? = some '/')
    (h₄ : pathAppId p = none) :
    extractAppId { pathname := "/app/" ++ seg ++ rest, queryAppId := q, method := m, headers := hs }
      = some seg ∧
    extractAppId { pathname := p, queryAppId := q, method := m, headers := hs } = q := by
  constructor
  · show (match pathAppId ("/app/" ++ seg ++ rest) with
          | some a => some a
          | none => q) = some seg
    rw [pathAppId_concat seg rest h₁ h₂ h₃]
  · show (match pathAppId p with
          | some a => some a
          | none => q) = q
    rw [h₄]

/-- Witness for C8: path key `my-app` beats query key `other-app`; the
query key is used at a path the path rule does not match. -/
theorem extract_appid_order_witness :
    ("my-app".data ≠ [] ∧ (∀ c ∈ "my-app".data, c ≠ '/') ∧
      ("/x".data = [] ∨ "/x".data.head? = some '/') ∧ pathAppId "/health" = none) ∧
    (extractAppId { pathname := "/app/" ++ "my-app" ++ "/x", queryAppId := some "other-app", method := "GET", headers := [] } = some "my-app" ∧
      extractAppId { pathname := "/health", queryAppId := some "other-app", method := "GET", headers := [] } = some "other-app") :=
  ⟨⟨by decide, by decide, by decide, by decide⟩,
    extract_appid_order "my-app" "/x" "/health" (some "other-app") "GET" []
      (by decide) (by decide) (by decide) (by decide)⟩

/-!
## Claim C9
-/

lemma runCalls_running (s : CtrlState) (n now : Nat) (h : s.lifecycle = Lifecycle.running) :
    runCalls s n now = (s, List.replicate n Lifecycle.running) := by
  induction n with
  | zero => rfl
  | succ n ih =>
    have he : ensureRunning s now = (s, Lifecycle.running) := by
      unfold ensureRunning
      rw [h]
    simp only [runCalls, he, ih, List.replicate_succ]

lemma runCalls_cold (s : CtrlState) (n now : Nat) (h : s.lifecycle = Lifecycle.cold) :
    runCalls s (n + 1) now =
      ({ lifecycle := Lifecycle.running, storage := onStart s.storage now
         startAttempts := s.startAttempts + 1 },
       Lifecycle.running :: List.replicate n Lifecycle.running) := by
  have he : ensureRunning s now =
      ({ lifecycle := Lifecycle.running, storage := onStart s.storage now
         startAttempts := s.startAttempts + 1 }, Lifecycle.running) := by
    unfold ensureRunning
    rw [h]
  have hr := runCalls_running
    { lifecycle := Lifecycle.running, storage := onStart s.storage now
      startAttempts := s.startAttempts + 1 } n now rfl
  simp only [runCalls, he, hr]

/-- Claim C9: starting from a Cold controller, any serialized execution
of `n + 1` concurrent `ensureRunning()` calls invokes the external start
primitive exactly once (`startAttempts` rises by exactly one and, via
the src `onStart` hook, `startCount` by exactly one), and every caller
observes the same resulting state: Running. -/
theorem single_start_invariant (s : CtrlState) (n now : Nat)
    (h : s.lifecycle = Lifecycle.cold) :
    (runCalls s (n + 1) now).1.startAttempts = s.startAttempts + 1 ∧
    (runCalls s (n + 1) now).1.storage.startCount
      = some (s.storage.startCount.getD 0 + 1) ∧
    (runCalls s (n + 1) now).1.lifecycle = Lifecycle.running ∧
    ∀ o ∈ (runCalls s (n + 1) now).2, o = Lifecycle.running := by
  rw [runCalls_cold s n now h]
  refine ⟨rfl, rfl, rfl, ?_⟩
  intro o ho
  rcases List.mem_cons.mp ho with h' | h'
  · exact h'
  · exact List.eq_of_mem_replicate h'

/-- A cold controller with one previous start on record. -/
def exColdCtrl : CtrlState :=
  { lifecycle := Lifecycle.cold
    storage := { emptyStorage with startCount := some 1 }
    startAttempts := 1 }

/-- Witness for C9: three concurrent callers on a cold controller. -/
theorem single_start_invariant_witness :
    exColdCtrl.lifecycle = Lifecycle.cold ∧
    ((runCalls exColdCtrl (2 + 1) 7).1.startAttempts = exColdCtrl.startAttempts + 1 ∧
      (runCalls exColdCtrl (2 + 1) 7).1.storage.startCount
        = some (exColdCtrl.storage.startCount.getD 0 + 1) ∧
      (runCalls exColdCtrl (2 + 1) 7).1.lifecycle = Lifecycle.running ∧
      ∀ o ∈ (runCalls exColdCtrl (2 + 1) 7).2, o = Lifecycle.running) :=
  ⟨rfl, single_start_invariant exColdCtrl 2 7 rfl⟩

/-!
## Claim C10
-/

lemma route_management (seg rest : String) (q : Option String) (m : String)
    (hs : List (String × String))
    (hvk : validKey seg = true) (h₃ : rest.data.head? = some '/') :
    routeRequest { pathname := "/app/" ++ seg ++ rest, queryAppId := q, method := m, headers := hs }
      = dispatchManagement seg rest m := by
  have h₁ : seg.data ≠ [] := validKey_data_ne_nil hvk
  have h₂ : ∀ c ∈ seg.data, c ≠ '/' := validKey_no_slash hvk
  have hd := appPathData seg rest
  have hne1 : "/app/" ++ seg ++ rest ≠ "/" := by
    intro hcontra
    have h' := congrArg String.data hcontra
    rw [hd] at h'
    injection h' with _ h'
    exact absurd h' (List.cons_ne_nil _ _)
  have hne2 : "/app/" ++ seg ++ rest ≠ "/ui" := by
    intro hcontra
    have h' := congrArg String.data hcontra
    rw [hd] at h'
    injection h' with _ h'
    injection h' with h' _
    exact absurd h' (by decide)
  have hne3 : "/app/" ++ seg ++ rest ≠ "/health" := by
    intro hcontra
    have h' := congrArg String.data hcontra
    rw [hd] at h'
    injection h' with _ h'
    injection h' with h' _
    exact absurd h' (by decide)
  have hne4 : "/app/" ++ seg ++ rest ≠ "/api" := by
    intro hcontra
    have h' := congrArg String.data hcontra
    rw [hd] at h'
    injection h' with _ h'
    injection h' with _ h'
    injection h' with _ h'
    injection h' with h' _
    exact absurd h' (by decide)
  have hex : extractAppId
      { pathname := "/app/" ++ seg ++ rest, queryAppId := q, method := m, headers := hs }
      = some seg := by
    show (match pathAppId ("/app/" ++ seg ++ rest) with
          | some a => some a
          | none => q) = some seg
    rw [pathAppId_concat seg rest h₁ h₂ (Or.inr h₃)]
  have h1 : ¬("/app/" ++ seg ++ rest = "/" ∨ "/app/" ++ seg ++ rest = "/ui") := by
    rintro (h' | h')
    · exact hne1 h'
    · exact hne2 h'
  unfold routeRequest
  rw [if_neg h1, if_neg hne3, if_neg hne4, hex]
  show (if seg.data = [] then Outcome.missingAppId
        else if validKey seg = false then Outcome.invalidAppId seg
        else dispatchManagement seg (appPathOf ("/app/" ++ seg ++ rest)) m)
      = dispatchManagement seg rest m
  rw [if_neg h₁, if_neg (by simp [hvk] : ¬(validKey seg = false)),
      appPathOf_concat seg rest h₁ h₂ h₃]

/-- Claim C10: a request to the management path `/_restart` with any
method other than POST, or to `/_metadata` with any method other than
GET, POST or PUT, is not handled by the management layer: it falls
through to forwarding to the tenant instance like any other path. -/
theorem management_method_mismatch_forwards (k m m' : String) (q : Option String)
    (hs : List (String × String)) (hvk : validKey k = true)
    (hm : m ≠ "POST") (hg : m' ≠ "GET") (hp : m' ≠ "POST") (hpu : m' ≠ "PUT") :
    routeRequest { pathname := "/app/" ++ k ++ "/_restart", queryAppId := q, method := m, headers := hs }
      = Outcome.forward k "/_restart" ∧
    routeRequest { pathname := "/app/" ++ k ++ "/_metadata", queryAppId := q, method := m', headers := hs }
      = Outcome.forward k "/_metadata" := by
  constructor
  · rw [route_management k "/_restart" q m hs hvk rfl]
    unfold dispatchManagement
    rw [if_neg (by decide : ¬(("/_restart" : String) = "/_status")),
        if_neg (fun h' => hm h'.2),
        if_neg (fun h' => absurd h'.1 (by decide)),
        if_neg (fun h' => absurd h'.1 (by decide))]
  · rw [route_management k "/_metadata" q m' hs hvk rfl]
    unfold dispatchManagement
    rw [if_neg (by decide : ¬(("/_metadata" : String) = "/_status")),
        if_neg (fun h' => absurd h'.1 (by decide)),
        if_neg (fun h' => hg h'.2)]
    rw [if_neg ?hmeta]
    case hmeta =>
      rintro ⟨_, h' | h'⟩
      · exact hp h'
      · exact hpu h'

/-- Witness for C10: GET on `/_restart` and DELETE on `/_metadata` for
the valid key `my-app` both forward to the instance. -/
theorem management_method_mismatch_forwards_witness :
    (validKey "my-app" = true ∧ ("GET" : String) ≠ "POST" ∧ ("DELETE" : String) ≠ "GET" ∧
      ("DELETE" : String) ≠ "POST" ∧ ("DELETE" : String) ≠ "PUT") ∧
    (routeRequest { pathname := "/app/" ++ "my-app" ++ "/_restart", queryAppId := none, method := "GET", headers := [] } = Outcome.forward "my-app" "/_restart" ∧
      routeRequest { pathname := "/app/" ++ "my-app" ++ "/_metadata", queryAppId := none, method := "DELETE", headers := [] } = Outcome.forward "my-app" "/_metadata") :=
  ⟨⟨by decide, by decide, by decide, by decide, by decide⟩,
    management_method_mismatch_forwards "my-app" "GET" "DELETE" none [] (by decide)
      (by decide) (by decide) (by decide) (by decide)⟩

end MultiTenant
